import Mathlib

/-!
Verification of the `vipyto` repository (shallow embedding).

The Python sources embedded here are:
- `vipyto/docs.py` (`init_docs` and its template constants),
- `vipyto/path.py` (`get_git_root`),
- `vipyto/cli.py` (`build_docs`),
- `vipyto/train.py` (`set_seeds`).

Pure text manipulation is embedded as functions over `String` / `List Char`;
the filesystem / subprocess orchestration of `init_docs` is embedded as a
function from an environment (the results of all external interactions) to
the ordered list of filesystem/subprocess actions it performs, paired with
the uncaught Python exception if one propagates.
-/

namespace Vipyto

/- ## Python string primitives, modelled on `List Char` -/

/-- Models Python `str.startswith` at the list level: `startsList p s` is
true when `p` is an initial segment of `s`. -/
def startsList : List Char → List Char → Bool
  | [], _ => true
  | _ :: _, [] => false
  | a :: as, b :: bs => a == b && startsList as bs

/-- Models Python substring containment (`needle in hay`). -/
def containsList (needle : List Char) : List Char → Bool
  | [] => startsList needle []
  | h :: t => startsList needle (h :: t) || containsList needle t

/-- Models Python `str.startswith` on `String`s: `pyStartsWith s p` is
`s.startswith(p)`. -/
def pyStartsWith (s p : String) : Bool := startsList p.data s.data

/-- Models Python substring containment on `String`s: `p in s`. -/
def pyContainsSub (s p : String) : Bool := containsList p.data s.data

/-- Models Python `str.lower` (ASCII letters, which is all the code feeds it). -/
def pyLower (s : String) : String := ⟨s.data.map Char.toLower⟩

/-- Models Python `str.split(sep)` for a one-character separator: splits at
every occurrence, keeping empty segments. -/
def splitOnChar (sep : Char) : List Char → List (List Char)
  | [] => [[]]
  | a :: as =>
    if a == sep then [] :: splitOnChar sep as
    else match splitOnChar sep as with
      | [] => [[a]]
      | h :: t => (a :: h) :: t

/-- Models `text.split("\n")` as used on file contents in `init_docs`. -/
def splitLines (s : String) : List String := (splitOnChar '\n' s.data).map String.mk

/-- Models `"\n".join(new_lines)` from `init_docs`. -/
def joinLines : List String → String
  | [] => ""
  | [l] => l
  | l :: rest => l ++ "\n" ++ joinLines rest

/-- Character class of the regex `\s` / of Python `str.strip()` with no
argument (ASCII part; the code only meets ASCII whitespace). -/
def isPySpace (c : Char) : Bool :=
  c == ' ' || c == '\t' || c == '\n' || c == '\r' || c == '\x0b' || c == '\x0c'

/-- Models Python `str.strip(chars)`: drop characters satisfying `p` from
both ends. -/
def stripChars (p : Char → Bool) (l : List Char) : List Char :=
  ((l.dropWhile p).reverse.dropWhile p).reverse

/-- Fuel-driven worker for `pyReplace`; the fuel is the haystack length, which
is enough because the needle used in the code (`"$PROJECT"`) is nonempty, so
each step consumes at least one character. -/
def pyReplaceAux (needle repl : List Char) : Nat → List Char → List Char
  | 0, l => l
  | _ + 1, [] => []
  | fuel + 1, a :: as =>
    if startsList needle (a :: as) then
      repl ++ pyReplaceAux needle repl fuel ((a :: as).drop needle.length)
    else
      a :: pyReplaceAux needle repl fuel as

/-- Models Python `s.replace(needle, repl)` (left-to-right, non-overlapping)
for a nonempty needle. -/
def pyReplace (s needle repl : String) : String :=
  ⟨pyReplaceAux needle.data repl.data s.data.length s.data⟩

/- ## Template constants of `vipyto/docs.py` -/

/-- PREAMBLE constant of `vipyto/docs.py`. -/
def PREAMBLE : String :=
  "import sys\nfrom pathlib import Path\n\nROOT = Path(__file__).resolve().parent.parent\nsys.path.insert(0, str(ROOT))\n"

/-- RTD_CONF constant of `vipyto/docs.py` (contents of `.readthedocs.yml`). -/
def RTD_CONF : String :=
  "\n# Read the Docs configuration file for Sphinx projects\n# See https://docs.readthedocs.io/en/stable/config-file/v2.html for details\n\n# Required\nversion: 2\n\n# Set the OS, Python version and other tools you might need\nbuild:\n  os: ubuntu-22.04\n  tools:\n    python: \"3.9\"\n    # You can also specify other tool versions:\n    # nodejs: \"20\"\n    # rust: \"1.70\"\n    # golang: \"1.20\"\n\n# Build documentation in the \"docs/\" directory with Sphinx\nsphinx:\n  configuration: docs/conf.py\n  # You can configure Sphinx to use a different builder, for instance use the\n  # dirhtml builder for simpler URLs\n  # builder: \"dirhtml\"\n  # Fail on all warnings to avoid broken references\n  # fail_on_warning: true\n# Optionally build your docs in additional formats such as PDF and ePub\n# formats:\n#    - pdf\n#    - epub\n\n# Optional but recommended, declare the Python requirements required\n# to build your documentation\n# See https://docs.readthedocs.io/en/stable/guides/reproducible-builds.html\npython:\n  install:\n    - requirements: docs/requirements-docs.txt\n"

/-- REQS constant of `vipyto/docs.py` (contents of `docs/requirements-docs.txt`). -/
def REQS : String :=
  "sphinx\nmyst-parser\nfuro\nsphinx-copybutton\nsphinx-autodoc-typehints\nsphinx-autoapi\nsphinx-math-dollar\nsphinx-design\nsphinx-copybutton\nsphinxext-opengraph\n"

/-- EXTS constant of `vipyto/docs.py`: the canonical replacement for the
`extensions = [` ... `]` block of the generated `conf.py`. -/
def EXTS : String :=
  "extensions = [\n    \"myst_parser\",\n    \"sphinx.ext.viewcode\",\n    \"sphinx_math_dollar\",\n    \"sphinx.ext.mathjax\",\n    \"sphinx.ext.autodoc\",\n    \"sphinx.ext.intersphinx\",\n    \"autoapi.extension\",\n    \"sphinx.ext.napoleon\",\n    \"sphinx_autodoc_typehints\",\n    \"sphinx.ext.todo\",\n    \"sphinx_design\",\n    \"sphinx_copybutton\",\n    \"sphinxext.opengraph\",\n]\n"

/-- CONFIGS constant of `vipyto/docs.py` (a Python raw string; every
backslash below is a literal character of the constant). -/
def CONFIGS : String :=
  "\n# Configuration section from vipyto:\n# ----------------------------------\n\n# Configuratiion for sphinx.ext.autodoc & autoapi.extension\n# https://autoapi.readthedocs.io/\n\nautodoc_typehints = \"description\"\nautoapi_type = \"python\"\nautoapi_dirs = [str(ROOT/ \"$PROJECT\")]\nautoapi_member_order = \"groupwise\"\nautoapi_template_dir = \"_templates/autoapi\"\nautoapi_python_class_content = \"init\"\nautoapi_options = [\n    \"members\",\n    \"undoc-members\",\n]\nautoapi_keep_files = False\n\n# Configuration for sphinx_math_dollar\n\n# sphinx_math_dollar\n# https://www.sympy.org/sphinx-math-dollar/\n\n# Note: CHTML is the only output format that works with \\mathcal\x7b\x7d\nmathjax_path = \"https://cdn.mathjax.org/mathjax/latest/MathJax.js?config=TeX-AMS_CHTML\"\nmathjax3_config = \x7b\n    \"tex\": \x7b\n        \"inlineMath\": [\n            [\"$\", \"$\"],\n            [\"\\\\(\", \"\\\\)\"],\n        ],\n        \"processEscapes\": True,\n    \x7d,\n    \"jax\": [\"input/TeX\", \"output/CommonHTML\", \"output/HTML-CSS\"],\n\x7d\n\n# Configuration for sphinx_autodoc_typehints\n# https://github.com/tox-dev/sphinx-autodoc-typehints\ntypehints_fully_qualified = False\nalways_document_param_types = True\ntypehints_document_rtype = True\ntypehints_defaults = \"comma\"\n\n# Configuration for the MyST (markdown) parser\n# https://myst-parser.readthedocs.io/en/latest/intro.html\nmyst_enable_extensions = [\"colon_fence\"]\n\n# Configuration for sphinxext.opengraph\n# https://sphinxext-opengraph.readthedocs.io/en/latest/\n\nogp_site_url = \"TODO\"\nogp_social_cards = \x7b\n    \"enable\": True,\n    \"image\": \"./_static/images/SOME_IMAGE\",\n\x7d\n\n"

/-- INDEX constant of `vipyto/docs.py` (contents of `docs/index.rst`). -/
def INDEX : String :=
  ".. include:: ../README.md\n   :parser: myst_parser.sphinx_\n\n.. toctree::\n   :hidden:\n   :maxdepth: 4\n\n   self\n\n"

/- ## Version resolution (`init_docs`, lines 245-256) -/

/-- Part `.+` of the regex: succeeds on a position whose first character is
not a newline. -/
def dotPlus : List Char → Bool
  | [] => false
  | c :: _ => c != '\n'

/-- Part `\s?.+` of the regex `version\s?=\s?.+`, with backtracking over the
optional whitespace character. -/
def spaceOptDotPlus (l : List Char) : Bool :=
  match l with
  | [] => false
  | c :: rest => (isPySpace c && dotPlus rest) || dotPlus (c :: rest)

/-- Part `\s?=\s?.+` of the regex, after the literal `version`. -/
def eqPart : List Char → Bool
  | '=' :: rest => spaceOptDotPlus rest
  | c :: '=' :: rest => isPySpace c && spaceOptDotPlus rest
  | _ => false

/-- Models `re.match(r"version\s?=\s?.+", line)`: an anchored prefix match of
the regex against the line. -/
def versionLineMatch (line : String) : Bool :=
  match line.data with
  | 'v' :: 'e' :: 'r' :: 's' :: 'i' :: 'o' :: 'n' :: rest => eqPart rest
  | _ => false

/-- Models `line.split("=")[1].strip().strip('"').strip("'")` from
`init_docs` (the matched lines always contain `=`, so index 1 exists). -/
def extractVersionValue (line : String) : String :=
  let seg := (splitOnChar '=' line.data).getD 1 []
  ⟨stripChars (fun c => c == '\x27') (stripChars (fun c => c == '"') (stripChars isPySpace seg))⟩

/-- The `for line in lines: if re.match(...): version = ...; break` loop of
`init_docs`; `none` means the loop finished without `break`, leaving the
Python local `version` unassigned. -/
def scanVersion : List String → Option String
  | [] => none
  | line :: rest =>
    if versionLineMatch line then some (extractVersionValue line) else scanVersion rest

/-- Version resolution of `init_docs` (lines 245-256).
`metadataVersion` is the result of `importlib.metadata.version(project)`
(`none` models `PackageNotFoundError`); `manifest` is the text of
`pyproject.toml` (`none` models `FileNotFoundError` on `read_text`).
The result `none` models the Python local `version` being left unassigned,
which makes the first later use of `version` raise `NameError`. -/
def resolveVersion (metadataVersion : Option String) (manifest : Option String) :
    Option String :=
  match metadataVersion with
  | some v => some v
  | none =>
    match manifest with
    | none => some "0.1.0"
    | some text => scanVersion (splitLines text)

/- ## The conf.py line transformation (`init_docs`, lines 284-308) -/

/-- The html-theme rewrite of the loop:
`if line.startswith("html_theme ="): line = 'html_theme = "furo"'`. -/
def themeRewrite (line : String) : String :=
  if pyStartsWith line "html_theme =" then "html_theme = \"furo\"" else line

/-- The static-path rewrite of the loop:
`if line == "html_static_path = ['_static']": line += "\n" + 'html_css_files = ["css/custom.css"]'`. -/
def staticRewrite (line : String) : String :=
  if line = "html_static_path = [\x27_static\x27]" then
    line ++ ("\n" ++ "html_css_files = [\"css/custom.css\"]")
  else line

/-- The import-preamble rewrite of the loop:
`if "# -- General configuration" in line: line = PREAMBLE + "\n" + line`. -/
def generalRewrite (line : String) : String :=
  if pyContainsSub line "# -- General configuration" then PREAMBLE ++ ("\n" ++ line) else line

/-- The three per-line rewrites of the loop body, in source order (the
`is_exts` bookkeeping is separate, in `transformStep`). -/
def rewriteLine (line : String) : String :=
  generalRewrite (staticRewrite (themeRewrite line))

/-- One iteration of the `for line in lines` loop of `init_docs`: the state
is the pair `(new_lines, is_exts)`. -/
def transformStep (acc : List String × Bool) (line : String) : List String × Bool :=
  let isExts := if line = "extensions = [" then true else acc.2
  let line' := rewriteLine line
  let stored := if isExts then acc.1 else acc.1 ++ [line']
  if isExts ∧ line' = "]" then (stored ++ [EXTS], false) else (stored, isExts)

/-- `CONFIGS.replace("$PROJECT", project)`, the block appended after the loop. -/
def configsFor (project : String) : String := pyReplace CONFIGS "$PROJECT" project

/-- The whole single forward pass of `init_docs` over the lines of
`docs/conf.py` (lines 285-307), producing the `new_lines` list (the code then
writes `"\n".join(new_lines)`). -/
def transformConf (lines : List String) (project : String) : List String :=
  (lines.foldl transformStep ([], false)).1 ++ [configsFor project]

/- ## Orchestration model of `init_docs` (filesystem and subprocess actions) -/

/-- Filesystem / subprocess actions performed by `init_docs`, in order.
`runCmdA cmd cwd` is a `run_command(cmd, cwd=cwd)` call (`cwd = none` when the
Python call passes no `cwd`). Console logging and pure reads (`read_text`,
`input`, `git config user.name`, metadata lookup) are inputs of the model,
not traced actions. -/
inductive Action where
  | rmtree (path : String)
  | mkdir (path : String)
  | runCmdA (cmd : String) (cwd : Option String)
  | writeFile (path : String) (content : String)
  | touch (path : String)
deriving DecidableEq, Repr

/-- Uncaught Python exceptions that can escape `init_docs`. -/
inductive PyError where
  | calledProcessError (cmd : String)
  | nameError (name : String)
deriving DecidableEq, Repr

/-- The environment of one `init_docs` run: everything the function reads
from the outside world. `run c w` tells whether the subprocess `c` (run with
working directory `w`) exits with status 0. The model presumes a git root was
found and `git config user.name` succeeded (claims about those paths are
settled separately on `get_git_root`). -/
structure Env where
  rootPath : String
  rootName : String
  author : String
  pythonExe : String
  metadataVersion : Option String
  manifest : Option String
  docsExists : Bool
  response : String
  sphinxInstalled : Bool
  run : String → Option String → Bool
  confText : String

/-- The overwrite-prompt test of `init_docs` line 260:
`"y" not in input("...").lower()`. -/
def overwriteDeclined (response : String) : Bool :=
  !((pyLower response).data.contains 'y')

/-- `f"{sys.executable} -m pip install --upgrade pip"`. -/
def pipUpgradeCmd (env : Env) : String := env.pythonExe ++ " -m pip install --upgrade pip"

/-- `f"{sys.executable} -m pip install sphinx"` (bootstrap when `import sphinx` fails). -/
def pipSphinxCmd (env : Env) : String := env.pythonExe ++ " -m pip install sphinx"

/-- `f"{sys.executable} -m pip install -r docs/requirements-docs.txt"`. -/
def pipReqsCmd (env : Env) : String :=
  env.pythonExe ++ " -m pip install -r docs/requirements-docs.txt"

/-- The `sphinx-quickstart` command string built by `" ".join([...])` in
`init_docs` (lines 266-273). -/
def quickstartCmd (env : Env) (version : String) : String :=
  "sphinx-quickstart -q -p " ++ env.rootName ++ " -a " ++ env.author ++ " -v " ++ version ++
    " --no-sep --ext-autodoc --ext-viewcode --ext-todo --ext-mathjax --ext-intersphinx --makefile docs/"

/-- Runs a sequence of `run_command` calls, recording each invocation and
stopping at the first one that exits non-zero (whose command string is
returned); `run_command` raises `CalledProcessError` in that case. -/
def runSeq (env : Env) (acts : List Action) :
    List (String × Option String) → List Action × Option String
  | [] => (acts, none)
  | (c, w) :: rest =>
    let acts' := acts ++ [Action.runCmdA c w]
    if env.run c w then runSeq env acts' rest else (acts', some c)

/-- The seven filesystem writes of `init_docs` lines 308-314, after the
conf.py transformation. -/
def confWriteActions (env : Env) : List Action :=
  [Action.writeFile (env.rootPath ++ "/docs/conf.py")
      (joinLines (transformConf (splitLines env.confText) env.rootName)),
   Action.writeFile (env.rootPath ++ "/docs/requirements-docs.txt") REQS,
   Action.writeFile (env.rootPath ++ "/.readthedocs.yml") RTD_CONF,
   Action.mkdir (env.rootPath ++ "/docs/_static/css"),
   Action.mkdir (env.rootPath ++ "/docs/_static/images"),
   Action.touch (env.rootPath ++ "/docs/_static/css/custom.css"),
   Action.writeFile (env.rootPath ++ "/docs/index.rst") INDEX]

/-- The body of `init_docs` after the overwrite prompt (version use, mkdir,
sphinx bootstrap, quickstart, conf rewrite, writes, pip install, doc build).
Returns the recorded actions together with the uncaught exception, if any:
- an unassigned `version` raises `NameError` at its first use (the log call
  on line 264, before any filesystem action of this part);
- a failing bootstrap / quickstart / pip command propagates
  `CalledProcessError` (no handler in the source for those);
- a failing `make html` is caught (lines 320-336) and only logged. -/
def initDocsMain (env : Env) : List Action × Option PyError :=
  match resolveVersion env.metadataVersion env.manifest with
  | none => ([], some (PyError.nameError "version"))
  | some version =>
    let acts := [Action.mkdir (env.rootPath ++ "/docs")]
    let bootstrap :=
      if env.sphinxInstalled then []
      else [(pipUpgradeCmd env, (none : Option String)), (pipSphinxCmd env, none)]
    match runSeq env acts (bootstrap ++ [(quickstartCmd env version, none)]) with
    | (acts, some c) => (acts, some (PyError.calledProcessError c))
    | (acts, none) =>
      let acts := acts ++ confWriteActions env
      match runSeq env acts [(pipUpgradeCmd env, none), (pipReqsCmd env, none)] with
      | (acts, some c) => (acts, some (PyError.calledProcessError c))
      | (acts, none) =>
        (acts ++ [Action.runCmdA "make html" (some (env.rootPath ++ "/docs"))], none)

/-- `init_docs` of `vipyto/docs.py`: if `docs/` exists and the operator's
response contains no `y` (case-insensitive), return at once with no actions;
otherwise delete `docs/` first when it existed, then run the main body. -/
def init_docs (env : Env) : List Action × Option PyError :=
  if env.docsExists && overwriteDeclined env.response then ([], none)
  else
    let pre := if env.docsExists then [Action.rmtree (env.rootPath ++ "/docs")] else []
    let r := initDocsMain env
    (pre ++ r.1, r.2)

/-- True for a subprocess invocation with an explicit working directory; the
only such invocation in `init_docs` is the final `make html` build step, so
this recognises exactly the documentation-build step in a trace. -/
def isBuildInvocation : Action → Bool
  | Action.runCmdA _ (some _) => true
  | _ => false

/- ## `get_git_root` of `vipyto/path.py` -/

/-- `get_git_root` of `vipyto/path.py`. A directory is the list of its path
components with the leaf first, so `[]` is the filesystem root and `rest` is
the parent of `c :: rest`; `hasGit p` tells whether `(p / ".git").is_dir()`.
The `while path != path.parent` loop runs while the list is nonempty and
returns `None` (never raising) when it falls off the root. -/
def get_git_root (hasGit : List String → Bool) : List String → Option (List String)
  | [] => none
  | c :: rest => if hasGit (c :: rest) then some (c :: rest) else get_git_root hasGit rest

/-- The upward chain of directories from `cwd` inclusive, the filesystem
root `[]` included. -/
def upwardChain : List String → List (List String)
  | [] => [[]]
  | c :: rest => (c :: rest) :: upwardChain rest

/-- Modelled from the claim's words (for comparison with `get_git_root`):
the nearest directory, walking upward from `cwd` inclusive, containing a
`.git` subdirectory. -/
def nearestGitAncestor (hasGit : List String → Bool) (cwd : List String) :
    Option (List String) :=
  (upwardChain cwd).find? hasGit

/-- The upward chain of directories from `cwd` inclusive, the filesystem
root `[]` excluded: exactly the directories the source loop examines. -/
def strictUpwardChain : List String → List (List String)
  | [] => []
  | c :: rest => (c :: rest) :: strictUpwardChain rest

/- ## `build_docs` of `vipyto/cli.py` -/

/-- The `docs build` CLI subcommand (`build_docs` of `vipyto/cli.py`).
`gitRoot` is the `get_git_root()` result; `makeHtmlExit` the exit status of
`run_command("make html", cwd=docs)`. Result `some n` is the process exit
code `n` (plain return gives 0; the `CalledProcessError` handler raises
`typer.Exit(1)` which becomes exit code 1); `none` models the uncaught
`TypeError` of `root / "docs"` when no git root was found. -/
def build_docs (gitRoot : Option String) (makeHtmlExit : Nat) : Option Nat :=
  match gitRoot with
  | none => none
  | some _ => if makeHtmlExit = 0 then some 0 else some 1

/- ## `set_seeds` of `vipyto/train.py` -/

/-- The external seeding calls issued by `set_seeds`. -/
inductive SeedCall where
  | torchManualSeed (seed : Int)
  | randomSeed (seed : Int)
  | npRandomSeed (seed : Int)
  | cudaManualSeedAll (seed : Int)
  | cudnnDeterministic (value : Bool)
deriving DecidableEq, Repr

/-- `set_seeds` of `vipyto/train.py`, as the ordered list of calls it makes:
the body begins with `seed = 0`, overwriting the argument before any call. -/
def set_seeds (seed : Int) : List SeedCall :=
  let seed : Int := 0
  [SeedCall.torchManualSeed seed, SeedCall.randomSeed seed, SeedCall.npRandomSeed seed,
   SeedCall.cudaManualSeedAll seed, SeedCall.cudnnDeterministic true]


/- ## Concrete environments used by witnesses and counterexamples -/

/-- An `init_docs` environment where `docs/` exists and the operator answers
`"n"` to the overwrite prompt. -/
def envDecline : Env :=
  { rootPath := "/tmp/proj", rootName := "proj", author := "ada", pythonExe := "python3",
    metadataVersion := none, manifest := none, docsExists := true, response := "n",
    sphinxInstalled := true, run := fun _ _ => true, confText := "extensions = [\n]" }

/-- Same environment, but the operator answers `"any"`: a response that does
not begin with `y` yet contains one. -/
def envContainsY : Env := { envDecline with response := "any" }

/-- An environment with no pre-existing `docs/` in which every subprocess
succeeds except `pip install -r docs/requirements-docs.txt`. -/
def envPipFail : Env :=
  { envDecline with
    docsExists := false
    response := ""
    run := fun c _ => c != "python3 -m pip install -r docs/requirements-docs.txt" }

/-- An environment where the package metadata lookup raises not-found and
`pyproject.toml` exists but contains no version line. -/
def envNoVersion : Env :=
  { envDecline with docsExists := false, manifest := some "name = \"vipyto\"" }


/- # Helper lemmas -/

theorem mapIdOn {f : String → String} {xs : List String} (h : ∀ l ∈ xs, f l = l) :
    xs.map f = xs := by
  induction xs with
  | nil => rfl
  | cons a as ih =>
    simp only [List.map_cons]
    rw [h a (List.mem_cons_self a as), ih (fun l hl => h l (List.mem_cons_of_mem a hl))]

theorem themeRewrite_close {line : String} (h : themeRewrite line = "]") : line = "]" := by
  unfold themeRewrite at h
  by_cases hc : pyStartsWith line "html_theme =" = true
  · rw [if_pos hc] at h
    exact absurd h (by decide)
  · rwa [if_neg hc] at h

theorem staticRewrite_close {line : String} (h : staticRewrite line = "]") : line = "]" := by
  unfold staticRewrite at h
  by_cases hc : line = "html_static_path = [\x27_static\x27]"
  · rw [if_pos hc, hc] at h
    exact absurd h (by decide)
  · rwa [if_neg hc] at h

theorem generalRewrite_close {line : String} (h : generalRewrite line = "]") : line = "]" := by
  unfold generalRewrite at h
  by_cases hc : pyContainsSub line "# -- General configuration" = true
  · rw [if_pos hc] at h
    exfalso
    have h2 := congrArg (fun s => s.data.length) h
    simp only [String.data_append, List.length_append] at h2
    simp only [List.length_cons, List.length_nil] at h2
    have e1 : 1 ≤ PREAMBLE.data.length := by decide
    omega
  · rwa [if_neg hc] at h

theorem rewriteLine_close {line : String} (h : rewriteLine line = "]") : line = "]" := by
  unfold rewriteLine at h
  exact themeRewrite_close (staticRewrite_close (generalRewrite_close h))

theorem stepFalseOther (acc : List String) (line : String) (h : line ≠ "extensions = [") :
    transformStep (acc, false) line = (acc ++ [rewriteLine line], false) := by
  simp [transformStep, h]

theorem stepMarker (acc : List String) :
    transformStep (acc, false) "extensions = [" = (acc, true) := by
  have hr : rewriteLine "extensions = [" = "extensions = [" := by decide
  have hne : ("extensions = [" : String) ≠ "]" := by decide
  simp [transformStep, hr, hne]

theorem stepTrue (acc : List String) (line : String) (h : rewriteLine line ≠ "]") :
    transformStep (acc, true) line = (acc, true) := by
  simp [transformStep, h, ite_self]

theorem stepClose (acc : List String) :
    transformStep (acc, true) "]" = (acc ++ [EXTS], false) := by
  have hr : rewriteLine "]" = "]" := by decide
  have hm : ("]" : String) ≠ "extensions = [" := by decide
  simp [transformStep, hr, hm]

theorem foldlOutside (pre : List String) (acc : List String)
    (h : ∀ l ∈ pre, l ≠ "extensions = [") :
    pre.foldl transformStep (acc, false) = (acc ++ pre.map rewriteLine, false) := by
  induction pre generalizing acc with
  | nil => simp
  | cons a as ih =>
    simp only [List.foldl_cons, List.map_cons]
    rw [stepFalseOther acc a (h a (List.mem_cons_self a as))]
    rw [ih (acc ++ [rewriteLine a]) (fun l hl => h l (List.mem_cons_of_mem a hl))]
    simp

theorem foldlInside (mid : List String) (acc : List String)
    (h : ∀ l ∈ mid, rewriteLine l ≠ "]") :
    mid.foldl transformStep (acc, true) = (acc, true) := by
  induction mid with
  | nil => rfl
  | cons a as ih =>
    simp only [List.foldl_cons]
    rw [stepTrue acc a (h a (List.mem_cons_self a as))]
    exact ih (fun l hl => h l (List.mem_cons_of_mem a hl))

theorem scanVersionNone {lines : List String} (h : ∀ l ∈ lines, versionLineMatch l = false) :
    scanVersion lines = none := by
  induction lines with
  | nil => rfl
  | cons a as ih =>
    simp only [scanVersion, h a (List.mem_cons_self a as)]
    exact ih (fun l hl => h l (List.mem_cons_of_mem a hl))


/- # Claim theorems -/

set_option maxRecDepth 20000 in
/-- Counterexample to claim C1 as stated: in the input
`["html_theme = alabaster", "extensions = [", "x", "]"]` the first line lies
outside the (unique) extensions block, yet it does not appear unchanged in
the output of the transformation: the html-theme rewrite of the same pass
replaces it. -/
theorem c1_counterexample :
    "html_theme = alabaster" ∈ (["html_theme = alabaster", "extensions = [", "x", "]"] : List String) ∧
    "html_theme = alabaster" ∉ transformConf ["html_theme = alabaster", "extensions = [", "x", "]"] "proj" ∧
    transformConf ["html_theme = alabaster", "extensions = [", "x", "]"] "proj"
      = ["html_theme = \"furo\"", EXTS, configsFor "proj"] :=
  ⟨by decide, by decide, rfl⟩

/-- Claim C1 (amended): for an input with exactly one extensions block
(no opening marker before it or after it, no closing bracket line inside it),
the single forward pass replaces the whole block by the canonical `EXTS`
text, keeps every line outside the block in original order with the per-line
rewrites of the same pass applied to it (so unchanged whenever none of the
html-theme / static-path / general-configuration patterns matches it), and
appends the `CONFIGS` block with the project substituted. -/
theorem c1_extensions_block_replaced (pre mid post : List String) (project : String)
    (h1 : "extensions = [" ∉ pre) (h2 : "]" ∉ mid) (h3 : "extensions = [" ∉ post) :
    transformConf (pre ++ "extensions = [" :: (mid ++ "]" :: post)) project
      = pre.map rewriteLine ++ EXTS :: (post.map rewriteLine ++ [configsFor project]) := by
  unfold transformConf
  rw [List.foldl_append, List.foldl_cons, List.foldl_append, List.foldl_cons]
  rw [foldlOutside pre [] (fun l hl heq => h1 (heq ▸ hl))]
  rw [stepMarker]
  rw [foldlInside mid _ (fun l hl hc => h2 ((rewriteLine_close hc) ▸ hl))]
  rw [stepClose]
  rw [foldlOutside post _ (fun l hl heq => h3 (heq ▸ hl))]
  simp

/-- Witness for C1: the amended theorem applied to a synthetic 10-line input
whose marker pair sits at lines 3 and 7. -/
theorem c1_witness :
    transformConf (["a", "b"] ++ "extensions = [" :: (["x", "y", "z"] ++ "]" :: ["c", "d", "e"])) "proj"
      = ["a", "b"].map rewriteLine ++ EXTS :: (["c", "d", "e"].map rewriteLine ++ [configsFor "proj"]) :=
  c1_extensions_block_replaced ["a", "b"] ["x", "y", "z"] ["c", "d", "e"] "proj"
    (by decide) (by decide) (by decide)

/-- Counterexample to claim C2 as stated: the operator response `"any"` does
not begin with `y` (even after lowercasing), yet `init_docs` does not return
immediately: its first filesystem action is the recursive deletion of the
existing `docs/` directory, because the code tests `"y" in response.lower()`
(containment), not a prefix. -/
theorem c2_counterexample :
    pyStartsWith (pyLower "any") "y" = false ∧
    (init_docs envContainsY).1.head? = some (Action.rmtree "/tmp/proj/docs") := by decide

/-- Claim C2 (amended): when the documentation directory exists, `init_docs`
returns immediately with no filesystem action exactly when the lowercased
operator response does not contain the letter `y`; when the response does
contain a `y` (case-insensitive), the first action is the recursive deletion
of the existing directory, and regeneration follows. -/
theorem c2_overwrite_prompt (env : Env) (hd : env.docsExists = true) :
    ((pyLower env.response).data.contains 'y' = false → init_docs env = ([], none)) ∧
    ((pyLower env.response).data.contains 'y' = true →
      (init_docs env).1.head? = some (Action.rmtree (env.rootPath ++ "/docs"))) := by
  constructor
  · intro hc
    have hdecl : overwriteDeclined env.response = true := by
      unfold overwriteDeclined
      rw [hc]
      rfl
    unfold init_docs
    rw [hd, hdecl]
    rfl
  · intro hc
    have hdecl : overwriteDeclined env.response = false := by
      unfold overwriteDeclined
      rw [hc]
      rfl
    unfold init_docs
    rw [hd, hdecl]
    simp

/-- Witness for C2: with response `"n"` nothing happens; with response
`"any"` the pre-existing directory is deleted first. -/
theorem c2_witness :
    init_docs envDecline = ([], none) ∧
    (init_docs envContainsY).1.head? = some (Action.rmtree (envContainsY.rootPath ++ "/docs")) :=
  ⟨(c2_overwrite_prompt envDecline rfl).1 (by decide),
   (c2_overwrite_prompt envContainsY rfl).2 (by decide)⟩

/-- Claim C3: the version fallback chain of `init_docs`. Installed-package
metadata wins when present; when the metadata lookup raises not-found and the
manifest file is absent, the version is exactly `"0.1.0"`; a manifest whose
line is `version = "2.3.1"` resolves to exactly `"2.3.1"`; and in general the
first line matching the version pattern supplies the value (quotes and
whitespace stripped by `extractVersionValue`). -/
theorem c3_version_fallback :
    (∀ v manifest, resolveVersion (some v) manifest = some v) ∧
    resolveVersion none none = some "0.1.0" ∧
    resolveVersion none (some "version = \"2.3.1\"") = some "2.3.1" ∧
    ∀ pre line rest, (∀ l ∈ pre, versionLineMatch l = false) → versionLineMatch line = true →
      scanVersion (pre ++ line :: rest) = some (extractVersionValue line) := by
  refine ⟨fun v manifest => rfl, rfl, by decide, ?_⟩
  intro pre line rest hpre hline
  induction pre with
  | nil => simp [scanVersion, hline]
  | cons a as ih =>
    have ha : versionLineMatch a = false := hpre a (List.mem_cons_self a as)
    simp only [List.cons_append, scanVersion, ha]
    simp only [Bool.false_eq_true, if_false]
    exact ih (fun l hl => hpre l (List.mem_cons_of_mem a hl))

/-- Witness for C3: the first-match part of the theorem applied to a concrete
manifest whose second line is `version = "2.3.1"`. -/
theorem c3_witness :
    scanVersion (["name = \"p\""] ++ "version = \"2.3.1\"" :: ["x = 1"]) = some "2.3.1" := by
  have h := c3_version_fallback.2.2.2 ["name = \"p\""] "version = \"2.3.1\"" ["x = 1"]
    (by decide) (by decide)
  rw [h]
  decide

set_option maxRecDepth 20000 in
/-- Counterexample to claim C4 as stated: in `envPipFail` every subprocess
succeeds except `pip install -r docs/requirements-docs.txt`, and `init_docs`
does not continue to the documentation-build step: the `CalledProcessError`
escapes (second component) and no command is ever run in the docs directory
(the build invocation is the only action with a working directory). -/
theorem c4_counterexample :
    (init_docs envPipFail).2 = some (PyError.calledProcessError (pipReqsCmd envPipFail)) ∧
    (init_docs envPipFail).1.all (fun a => !isBuildInvocation a) = true := by decide

/-- Claim C4 (amended): a non-zero exit of the package-installer subprocess
in step 7 aborts `init_docs`: the `CalledProcessError` propagates uncaught
(there is no handler around the two pip invocations), the documentation-build
step is never reached, and the files written in steps 1-6 are left in place
(they appear in the trace, and nothing rolls them back). -/
theorem c4_pip_failure_aborts (env : Env) (v : String)
    (hd : env.docsExists = false)
    (hv : resolveVersion env.metadataVersion env.manifest = some v)
    (hs : env.sphinxInstalled = true)
    (hq : env.run (quickstartCmd env v) none = true)
    (hu : env.run (pipUpgradeCmd env) none = true)
    (hr : env.run (pipReqsCmd env) none = false) :
    init_docs env =
      ([Action.mkdir (env.rootPath ++ "/docs"),
        Action.runCmdA (quickstartCmd env v) none] ++ confWriteActions env ++
       [Action.runCmdA (pipUpgradeCmd env) none, Action.runCmdA (pipReqsCmd env) none],
       some (PyError.calledProcessError (pipReqsCmd env))) ∧
    (init_docs env).1.all (fun a => !isBuildInvocation a) = true := by
  have hmain : init_docs env =
      ([Action.mkdir (env.rootPath ++ "/docs"),
        Action.runCmdA (quickstartCmd env v) none] ++ confWriteActions env ++
       [Action.runCmdA (pipUpgradeCmd env) none, Action.runCmdA (pipReqsCmd env) none],
       some (PyError.calledProcessError (pipReqsCmd env))) := by
    simp [init_docs, initDocsMain, runSeq, hd, hv, hs, hq, hu, hr]
  refine ⟨hmain, ?_⟩
  rw [hmain]
  simp [confWriteActions, isBuildInvocation]

/-- Witness for C4: the amended theorem applied to `envPipFail`. -/
theorem c4_witness :
    init_docs envPipFail =
      ([Action.mkdir (envPipFail.rootPath ++ "/docs"),
        Action.runCmdA (quickstartCmd envPipFail "0.1.0") none] ++ confWriteActions envPipFail ++
       [Action.runCmdA (pipUpgradeCmd envPipFail) none, Action.runCmdA (pipReqsCmd envPipFail) none],
       some (PyError.calledProcessError (pipReqsCmd envPipFail))) ∧
    (init_docs envPipFail).1.all (fun a => !isBuildInvocation a) = true :=
  c4_pip_failure_aborts envPipFail "0.1.0" rfl rfl rfl (by decide) (by decide) (by decide)

/-- Counterexample to claim C5 as stated: when only the filesystem root
contains a `.git` directory and the current working directory is `/a`, the
nearest ancestor (inclusive walk) containing `.git` exists, namely the root
itself, but `get_git_root` returns `none`: the loop `while path != path.parent`
stops before ever examining the root. -/
theorem c5_counterexample :
    nearestGitAncestor (fun p => p.isEmpty) ["a"] = some [] ∧
    get_git_root (fun p => p.isEmpty) ["a"] = none := by decide

/-- Claim C5 (amended): `get_git_root` returns the nearest directory, walking
upward from the current working directory inclusive but excluding the
filesystem root (which the loop never examines), that contains a `.git`
subdirectory, and returns `none` (rather than raising) when no examined
directory contains one. -/
theorem c5_git_root_skips_fs_root (hasGit : List String → Bool) (cwd : List String) :
    get_git_root hasGit cwd = (strictUpwardChain cwd).find? hasGit := by
  induction cwd with
  | nil => rfl
  | cons c rest ih =>
    cases hg : hasGit (c :: rest) with
    | true => simp [get_git_root, strictUpwardChain, List.find?, hg]
    | false => simp [get_git_root, strictUpwardChain, List.find?, hg, ih]

/-- Claim C6: the html-theme line rewrite of the conf.py pass is idempotent. -/
theorem c6_theme_rewrite_idempotent (line : String) :
    themeRewrite (themeRewrite line) = themeRewrite line := by
  by_cases hc : pyStartsWith line "html_theme =" = true
  · have h1 : themeRewrite line = "html_theme = \"furo\"" := by
      unfold themeRewrite
      rw [if_pos hc]
    rw [h1]
    decide
  · have h1 : themeRewrite line = line := by
      unfold themeRewrite
      rw [if_neg hc]
    rw [h1, h1]

/-- Claim C7: the `docs build` subcommand exits with code 0 when `make html`
succeeds and with code 1 when it exits non-zero (the `CalledProcessError`
handler raises `typer.Exit(1)`). -/
theorem c7_build_docs_exit_codes (root : String) :
    build_docs (some root) 0 = some 0 ∧
    ∀ n : Nat, n ≠ 0 → build_docs (some root) n = some 1 := by
  refine ⟨rfl, fun n hn => ?_⟩
  unfold build_docs
  rw [if_neg hn]

/-- Witness for C7 at a concrete root and a concrete failing exit status. -/
theorem c7_witness :
    build_docs (some "/repo") 0 = some 0 ∧ build_docs (some "/repo") 2 = some 1 :=
  ⟨(c7_build_docs_exit_codes "/repo").1, (c7_build_docs_exit_codes "/repo").2 2 (by decide)⟩

/-- Claim C8: `set_seeds` overwrites its argument with 0 before any seeding
call, so every call is behaviorally identical to `set_seeds 0`: it seeds
torch, random, numpy and CUDA with the constant 0 and enables deterministic
cudnn. -/
theorem c8_set_seeds_constant (s : Int) :
    set_seeds s = set_seeds 0 ∧
    set_seeds s = [SeedCall.torchManualSeed 0, SeedCall.randomSeed 0, SeedCall.npRandomSeed 0,
      SeedCall.cudaManualSeedAll 0, SeedCall.cudnnDeterministic true] :=
  ⟨rfl, rfl⟩

set_option maxRecDepth 20000 in
/-- Counterexample to claim C9 as stated: with an unclosed extensions block,
the preceding line `html_theme = alabaster` does not appear as-is in the
output (the html-theme rewrite of the same pass replaces it), so the output
is not exactly the preceding lines followed by the appended configuration
block. -/
theorem c9_counterexample :
    transformConf ["html_theme = alabaster", "extensions = [", "x"] "proj"
      = ["html_theme = \"furo\"", configsFor "proj"] ∧
    transformConf ["html_theme = alabaster", "extensions = [", "x"] "proj"
      ≠ ["html_theme = alabaster", configsFor "proj"] :=
  ⟨rfl, by decide⟩

/-- Claim C9 (amended): if the input contains a line exactly equal to
`extensions = [` with no later line equal to `]`, the pass drops every line
from the opening marker to the end of file and never inserts the canonical
`EXTS` block; the output is exactly the preceding lines with the per-line
rewrites applied (unchanged when no rewrite pattern matches), followed by
the appended `CONFIGS` block. -/
theorem c9_unclosed_block_dropped (pre rest : List String) (project : String)
    (h1 : "extensions = [" ∉ pre) (h2 : "]" ∉ rest) :
    transformConf (pre ++ "extensions = [" :: rest) project
      = pre.map rewriteLine ++ [configsFor project] := by
  unfold transformConf
  rw [List.foldl_append, List.foldl_cons]
  rw [foldlOutside pre [] (fun l hl heq => h1 (heq ▸ hl))]
  rw [stepMarker]
  rw [foldlInside rest _ (fun l hl hc => h2 ((rewriteLine_close hc) ▸ hl))]
  simp

/-- Witness for C9: the amended theorem applied to a concrete input with an
unclosed block. -/
theorem c9_witness :
    transformConf (["a", "b"] ++ "extensions = [" :: ["x", "y"]) "proj"
      = ["a", "b"].map rewriteLine ++ [configsFor "proj"] :=
  c9_unclosed_block_dropped ["a", "b"] ["x", "y"] "proj" (by decide) (by decide)

/-- Claim C10: when the metadata lookup raises not-found and the manifest
file exists but no line matches the version pattern, the resolved version is
not the default `"0.1.0"`: the Python local `version` is never assigned, so
`init_docs` raises `NameError` at the first use of `version` (the log call),
before performing any filesystem action. -/
theorem c10_no_version_no_fallback (env : Env) (text : String)
    (hm : env.metadataVersion = none)
    (hman : env.manifest = some text)
    (hno : ∀ l ∈ splitLines text, versionLineMatch l = false)
    (hd : env.docsExists = false) :
    resolveVersion env.metadataVersion env.manifest = none ∧
    init_docs env = ([], some (PyError.nameError "version")) := by
  have hv : resolveVersion env.metadataVersion env.manifest = none := by
    rw [hm, hman]
    unfold resolveVersion
    exact scanVersionNone hno
  refine ⟨hv, ?_⟩
  simp [init_docs, initDocsMain, hd, hv]

/-- Witness for C10: the theorem applied to `envNoVersion`, whose manifest is
`name = "vipyto"` (no version line). -/
theorem c10_witness :
    resolveVersion envNoVersion.metadataVersion envNoVersion.manifest = none ∧
    init_docs envNoVersion = ([], some (PyError.nameError "version")) :=
  c10_no_version_no_fallback envNoVersion "name = \"vipyto\"" rfl rfl (by decide) rfl

end Vipyto
